import Mathlib

set_option maxRecDepth 16384
set_option maxHeartbeats 1000000

/-!
Shallow embedding of `isom/isom.go` (MPEG-4 audio config / ESDS descriptor
codec) and proofs about it.

Conventions of the embedding:
* Go byte slices are `List Nat` (each element a byte value; writers only ever
  produce values < 256, and readers of externally supplied data mask where the
  source masks).
* The external `bits` package primitives are modelled per their contract:
  an MSB-first bit stream.  `ReadBits n` yields the next `n` bits as an
  unsigned integer and fails when fewer than `n` bits remain; `WriteBits v n`
  appends the low `n` bits of `v` MSB-first; `FlushBits` zero-pads to a byte
  boundary.  `ReadUIntBE`/`WriteUIntBE` are big-endian byte-level integer
  reads/writes that fail on end of input.
* Go `io.Reader` values handed to the descriptor layer are modelled with the
  semantics of `bytes.Reader` (which is what every caller in the file and in
  the round-trip properties uses): a raw `Read(p)` returns up to `len(p)`
  bytes without error whenever the reader is not already exhausted, and
  returns an EOF error only when it is at end of input.
* Fallible operations return `Option` or `Except String`; error strings match
  the Go error messages where the Go code formats one, and are "EOF" for
  end-of-input conditions.
-/

namespace Isom

/-- The `w` low bits of `v`, most-significant bit first. -/
def natToBits (w v : Nat) : List Bool :=
  (List.range w).map (fun i => v.testBit (w - 1 - i))

/-- Value of a bit string read most-significant bit first. -/
def bitsToNat (l : List Bool) : Nat :=
  l.foldl (fun a b => 2 * a + (if b then 1 else 0)) 0

/-- Byte list to MSB-first bit list (8 bits per byte). -/
def bytesToBits (bs : List Nat) : List Bool :=
  bs.flatMap (natToBits 8)

/-- Structural worker for `bitsToBytes`; `fuel` bounds the recursion and is
always at least the list length at every call, so the fuel-exhausted branch is
unreachable. -/
def bitsToBytesGo : Nat → List Bool → List Nat
  | _, [] => []
  | 0, _ :: _ => []
  | fuel + 1, b :: rest => bitsToNat ((b :: rest).take 8) :: bitsToBytesGo fuel ((b :: rest).drop 8)

/-- Bit list (assumed byte-aligned by the flush) back to bytes, MSB first. -/
def bitsToBytes (l : List Bool) : List Nat :=
  bitsToBytesGo l.length l

/-- Model of `bits.Writer`: the bits emitted so far, in order. -/
structure BitWriter where
  bits : List Bool
deriving Repr, DecidableEq

/-- Model of `bits.Writer.WriteBits`: append the low `n` bits of `v`,
most-significant first. -/
def BitWriter.writeBits (w : BitWriter) (n v : Nat) : BitWriter :=
  ⟨w.bits ++ natToBits n v⟩

/-- Model of `bits.Writer.FlushBits`: zero-pad to a byte boundary and return
the bytes written to the underlying writer. -/
def BitWriter.flushBits (w : BitWriter) : List Nat :=
  bitsToBytes (w.bits ++ List.replicate ((8 - w.bits.length % 8) % 8) false)

/-- Model of `bits.Reader`: the bits not yet consumed. -/
structure BitReader where
  bits : List Bool
deriving Repr, DecidableEq

/-- Model of `bits.Reader.ReadBits`: the next `n` bits MSB first, failing when
fewer than `n` bits remain. -/
def BitReader.readBits (r : BitReader) (n : Nat) : Option (Nat × BitReader) :=
  if n ≤ r.bits.length then some (bitsToNat (r.bits.take n), ⟨r.bits.drop n⟩)
  else none

/-- Model of a `bits.Reader.ReadBits` call whose error result the Go caller
discards (`v, _ = br.ReadBits(n)`): on failure the Go variable receives the
zero value and the reader is left as is. -/
def readBitsD (r : BitReader) (n : Nat) : Nat × BitReader :=
  match r.readBits n with
  | some vr => vr
  | none => (0, r)

/-- Value of `MP4ESDescrTag` in the Go const block. -/
def MP4ESDescrTag : Nat := 3

/-- Value of `MP4DecConfigDescrTag` in the Go const block. -/
def MP4DecConfigDescrTag : Nat := 4

/-- Value of `MP4DecSpecificDescrTag` in the Go const block. -/
def MP4DecSpecificDescrTag : Nat := 5

/-- Value of `AOT_ESCAPE` as the Go `iota` const block actually computes it.
The block starts with `AOT_AAC_MAIN = 1 + iota` (spec index 0, value 1) and
re-bases twice: `AOT_TTSI = 12 + iota` at spec index 9 (value 21) and
`AOT_ER_AAC_LTP = 19 + iota` at spec index 15 (value 34).  `AOT_ESCAPE` is
spec index 27, so its value is 19 + 27 = 46 (not 31, the MPEG-4 escape
sentinel the surrounding code expects). -/
def AOT_ESCAPE : Nat := 46

/-- Model of `MPEG4AudioConfig`.  `SampleRate` and `ChannelCount` are Go
`int`, the remaining fields Go `uint` (the claims only exercise values far
below the 64-bit wrap except where noted at `Complete`). -/
structure MPEG4AudioConfig where
  SampleRate : Int
  ChannelCount : Int
  ObjectType : Nat
  SampleRateIndex : Nat
  ChannelConfig : Nat
deriving Repr, DecidableEq

/-- The `sampleRateTable` slice (13 entries). -/
def sampleRateTable : List Int :=
  [96000, 88200, 64000, 48000, 44100, 32000,
   24000, 22050, 16000, 12000, 11025, 8000, 7350]

/-- The `chanConfigTable` slice (8 entries). -/
def chanConfigTable : List Int :=
  [0, 1, 2, 3, 4, 5, 6, 8]

/-- Model of `readObjectType`: 5 bits, and 6 more when the value equals
`AOT_ESCAPE` (which a 5-bit value never does, given `AOT_ESCAPE = 46`). -/
def readObjectType (r : BitReader) : Option (Nat × BitReader) := do
  let (objectType, r) ← r.readBits 5
  if objectType = AOT_ESCAPE then
    let (i, r) ← r.readBits 6
    pure (32 + i, r)
  else
    pure (objectType, r)

/-- Model of `writeObjectType`: values below 32 as 5 bits; otherwise
`AOT_ESCAPE` in 5 bits followed by the value minus 32 in 6 bits. -/
def writeObjectType (w : BitWriter) (objectType : Nat) : BitWriter :=
  if 32 ≤ objectType then
    (w.writeBits 5 AOT_ESCAPE).writeBits 6 (objectType - 32)
  else
    w.writeBits 5 objectType

/-- Model of `readSampleRateIndex`: 4 bits, and when the value is 0xF the
next 24 bits replace it. -/
def readSampleRateIndex (r : BitReader) : Option (Nat × BitReader) := do
  let (index, r) ← r.readBits 4
  if index = 0xf then
    r.readBits 24
  else
    pure (index, r)

/-- Model of `writeSampleRateIndex`: values below 0xF as 4 bits; otherwise
0xF in 4 bits followed by the full value in 24 bits. -/
def writeSampleRateIndex (w : BitWriter) (index : Nat) : BitWriter :=
  if 0xf ≤ index then
    (w.writeBits 4 0xf).writeBits 24 index
  else
    w.writeBits 4 index

/-- Model of `ReadMPEG4AudioConfig`: object type, sample-rate index, and a
4-bit channel config; the derived `int` fields keep their Go zero values. -/
def ReadMPEG4AudioConfig (input : List Nat) : Option MPEG4AudioConfig := do
  let r : BitReader := ⟨bytesToBits input⟩
  let (objectType, r) ← readObjectType r
  let (sampleRateIndex, r) ← readSampleRateIndex r
  let (channelConfig, _) ← r.readBits 4
  pure ⟨0, 0, objectType, sampleRateIndex, channelConfig⟩

/-- Index of the last table entry equal to `v`, or `dflt` when none matches:
the Go reverse-lookup loops assign on every match without breaking. -/
def lastIndexOf (table : List Int) (v : Int) (dflt : Nat) : Nat :=
  (List.range table.length).foldl (fun acc i => if table.getD i 0 = v then i else acc) dflt

/-- Model of `WriteMPEG4AudioConfig`: object type, then the sample-rate index
(reverse-looked-up from `SampleRate` when the stored index is 0), then the
channel config (likewise from `ChannelCount` when 0) in 4 bits, then flush. -/
def WriteMPEG4AudioConfig (config : MPEG4AudioConfig) : List Nat :=
  let w := writeObjectType ⟨[]⟩ config.ObjectType
  let sampleRateIndex :=
    if config.SampleRateIndex = 0 then lastIndexOf sampleRateTable config.SampleRate 0
    else config.SampleRateIndex
  let w := writeSampleRateIndex w sampleRateIndex
  let channelConfig :=
    if config.ChannelConfig = 0 then lastIndexOf chanConfigTable config.ChannelCount 0
    else config.ChannelConfig
  let w := w.writeBits 4 channelConfig
  w.flushBits

/-- Model of `ReadADTSHeader`.  Every `ReadBits` error is discarded by the Go
code (the function has no error result), hence `readBitsD` throughout. -/
def ReadADTSHeader (input : List Nat) : Nat × Nat × Nat × Nat :=
  let r : BitReader := ⟨bytesToBits input⟩
  let r := (readBitsD r 12).2
  let r := (readBitsD r 1).2
  let r := (readBitsD r 2).2
  let r := (readBitsD r 1).2
  let objectType := (readBitsD r 2).1 + 1
  let r := (readBitsD r 2).2
  let sampleRateIndex := (readBitsD r 4).1
  let r := (readBitsD r 4).2
  let r := (readBitsD r 1).2
  let chanConfig := (readBitsD r 3).1
  let r := (readBitsD r 3).2
  let r := (readBitsD r 1).2
  let r := (readBitsD r 1).2
  let r := (readBitsD r 1).2
  let r := (readBitsD r 1).2
  let frameLength := (readBitsD r 13).1
  (objectType, sampleRateIndex, chanConfig, frameLength)

/-- Go conversion `int(x)` of a 64-bit `uint` value `x`: two's-complement
reinterpretation (64-bit platform). -/
def goIntOfUint (x : Nat) : Int :=
  if x < 2 ^ 63 then (x : Int) else (x : Int) - 2 ^ 64

/-- Model of `MPEG4AudioConfig.Complete`.  The Go guard converts the `uint`
index to `int` before comparing with the table length, then indexes the slice
with the original `uint`; an index that is `< length` after the signed
reinterpretation but out of range for the slice panics, modelled as `none`. -/
def MPEG4AudioConfig.Complete (c : MPEG4AudioConfig) : Option MPEG4AudioConfig :=
  match
    (if goIntOfUint c.SampleRateIndex < (sampleRateTable.length : Int) then
       match sampleRateTable.get? c.SampleRateIndex with
       | some v => some { c with SampleRate := v }
       | none => none
     else some c) with
  | none => none
  | some c =>
    if goIntOfUint c.ChannelConfig < (chanConfigTable.length : Int) then
      match chanConfigTable.get? c.ChannelConfig with
      | some v => some { c with ChannelCount := v }
      | none => none
    else some c

/-- Model of an `io.Reader` position over a byte slice, with the semantics of
Go `bytes.Reader`. -/
structure ByteReader where
  data : List Nat
deriving Repr, DecidableEq

/-- Model of `bits.ReadUIntBE(r, 8*nbytes)`: big-endian unsigned integer over
`nbytes` bytes, failing (like `io.ReadFull`) when fewer bytes remain. -/
def readUIntBE (r : ByteReader) (nbytes : Nat) : Except String (Nat × ByteReader) :=
  if nbytes ≤ r.data.length then
    Except.ok ((r.data.take nbytes).foldl (fun a b => 256 * a + b) 0, ⟨r.data.drop nbytes⟩)
  else
    Except.error ("EOF")

/-- Big-endian bytes of the low `8*nbytes` bits of `v`, as written by
`bits.WriteUIntBE(w, v, 8*nbytes)`. -/
def natToBytesBE (nbytes v : Nat) : List Nat :=
  (List.range nbytes).map (fun i => v / 256 ^ (nbytes - 1 - i) % 256)

/-- Model of a raw Go `r.Read(p)` with `p` of size `n` on a `bytes.Reader`,
followed by use of the whole buffer `p`: if the reader is already exhausted
the call returns an EOF error; otherwise it copies up to `n` bytes and
returns no error, leaving the rest of the buffer zero-filled. -/
def byteReaderRead (r : ByteReader) (n : Nat) : Except String (List Nat × ByteReader) :=
  if r.data.isEmpty then Except.error ("EOF")
  else
    Except.ok (r.data.take n ++ List.replicate (n - (r.data.take n).length) 0, ⟨r.data.drop n⟩)

/-- Structural worker for `descLenBytes`; `fuel` starts at the length value
itself, which bounds the number of loop iterations (the value strictly
decreases every round), so the fuel-exhausted branch is unreachable and the
function agrees with the unbounded Go loop on every input. -/
def descLenBytesGo : Nat → Nat → List Nat
  | _, 0 => []
  | 0, _ + 1 => []
  | fuel + 1, n + 1 =>
    (if 0x80 ≤ n + 1 then (n + 1) % 0x80 + 0x80 else (n + 1) % 0x80) ::
      descLenBytesGo fuel ((n + 1) / 0x80)

/-- The length bytes emitted by the loop in `writeDesc`: 7-bit groups,
least-significant group first, continuation bit (0x80) on every byte whose
remaining value is at least 0x80 — i.e. on all but the last byte emitted; a
length of 0 emits no bytes at all. -/
def descLenBytes (length : Nat) : List Nat :=
  descLenBytesGo length length

/-- Model of `writeDesc`: the tag byte, the length bytes, then the payload. -/
def writeDesc (tag : Nat) (data : List Nat) : List Nat :=
  tag % 256 :: (descLenBytes data.length ++ data)

/-- The length-decoding loop of `readDesc`: up to 4 bytes, accumulating the
low 7 bits of each most-significant-group-first, stopping early on a byte
whose top bit is clear; after 4 bytes the loop simply ends. -/
def readDescLen : Nat → Nat → ByteReader → Except String (Nat × ByteReader)
  | 0, length, r => Except.ok (length, r)
  | fuel + 1, length, r => do
    let (c, r) ← readUIntBE r 1
    let length := length <<< 7 ||| (c &&& 0x7f)
    if c &&& 0x80 = 0 then Except.ok (length, r)
    else readDescLen fuel length r

/-- Model of `readDesc`: tag byte, decoded length, then a payload buffer of
exactly `length` bytes filled by a single unchecked `r.Read`. -/
def readDesc (r : ByteReader) : Except String (Nat × List Nat × ByteReader) := do
  let (tag, r) ← readUIntBE r 1
  let (length, r) ← readDescLen 4 0 r
  let (data, r) ← byteReaderRead r length
  pure (tag, data, r)

/-- Model of `readESDesc`: ES_ID (2 bytes) and flags (1 byte), then the
optional stream-dependence (2 bytes), URL (1 length byte plus that many
bytes, where `io.CopyN` fails if fewer remain), and OCR (2 bytes) blocks. -/
def readESDesc (r : ByteReader) : Except String ByteReader := do
  let (_, r) ← readUIntBE r 2
  let (flags, r) ← readUIntBE r 1
  let r ←
    if flags &&& 0x80 ≠ 0 then do
      let (_, r) ← readUIntBE r 2
      pure r
    else pure r
  let r ←
    if flags &&& 0x40 ≠ 0 then do
      let (length, r) ← readUIntBE r 1
      if length ≤ r.data.length then pure (ByteReader.mk (r.data.drop length))
      else Except.error ("EOF")
    else pure r
  let r ←
    if flags &&& 0x20 ≠ 0 then do
      let (_, r) ← readUIntBE r 2
      pure r
    else pure r
  pure r

/-- Model of `writeESDesc`: ES_ID 0 in 2 bytes and flags 0 in 1 byte. -/
def writeESDesc : List Nat :=
  natToBytesBE 2 0 ++ natToBytesBE 1 0

/-- Model of `readDecConfDesc`: five fixed fields (1+1+3+4+4 bytes, all
discarded), then one descriptor whose tag must be `MP4DecSpecificDescrTag`;
its payload is the result. -/
def readDecConfDesc (r : ByteReader) : Except String (List Nat) := do
  let (_, r) ← readUIntBE r 1
  let (_, r) ← readUIntBE r 1
  let (_, r) ← readUIntBE r 3
  let (_, r) ← readUIntBE r 4
  let (_, r) ← readUIntBE r 4
  let (tag, data, _) ← readDesc r
  if tag ≠ MP4DecSpecificDescrTag then Except.error ("MP4DecSpecificDescrTag not found")
  else pure data

/-- Model of `writeDecConfDesc`: object id and stream type (1 byte each),
buffer size (3 bytes of 0), max and average bitrate (4 bytes of 0 each),
then the decoder-specific info wrapped as a tag-5 descriptor. -/
def writeDecConfDesc (objectId streamType : Nat) (decConfig : List Nat) : List Nat :=
  natToBytesBE 1 objectId ++ natToBytesBE 1 streamType ++ natToBytesBE 3 0 ++
    natToBytesBE 4 0 ++ natToBytesBE 4 0 ++ writeDesc MP4DecSpecificDescrTag decConfig

/-- Model of `ReadElemStreamDesc`: unwrap the tag-3 descriptor, parse the ES
info block, unwrap the tag-4 descriptor (note: the Go source formats the
message "MP4DecSpecificDescrTag not found" for this check too), then parse
the decoder-config descriptor. -/
def ReadElemStreamDesc (input : List Nat) : Except String (List Nat) := do
  let (tag, data, _) ← readDesc ⟨input⟩
  if tag ≠ MP4ESDescrTag then Except.error ("MP4ESDescrTag not found")
  else do
    let r ← readESDesc ⟨data⟩
    let (tag, data, _) ← readDesc r
    if tag ≠ MP4DecConfigDescrTag then Except.error ("MP4DecSpecificDescrTag not found")
    else readDecConfDesc ⟨data⟩

/-- Model of `ReadElemStreamDescAAC`: peel the descriptor nesting, then parse
the MPEG-4 audio config from the innermost payload. -/
def ReadElemStreamDescAAC (input : List Nat) : Except String MPEG4AudioConfig := do
  let data ← ReadElemStreamDesc input
  match ReadMPEG4AudioConfig data with
  | some config => pure config
  | none => Except.error ("EOF")

/-- Model of `WriteElemStreamDescAAC`: serialize the config, wrap it in the
decoder-config fields (object id 0x40, stream type 0x15), wrap that as a
tag-4 descriptor, prepend the minimal ES info block, and wrap as tag 3. -/
def WriteElemStreamDescAAC (config : MPEG4AudioConfig) : List Nat :=
  let data := WriteMPEG4AudioConfig config
  let data := writeDecConfDesc 0x40 0x15 data
  let data := writeDesc MP4DecConfigDescrTag data
  let data := writeESDesc ++ data
  writeDesc MP4ESDescrTag data

/-- Field of the 56-bit ADTS header layout: the `n` bits starting at bit
offset `off` of the input bytes, MSB first.  Offsets of the layout in the
source comments: profile at 16 (2 bits), sampling-frequency index at 18
(4 bits), channel configuration at 23 (3 bits), frame length at 30
(13 bits). -/
def adtsField (data : List Nat) (off n : Nat) : Nat :=
  bitsToNat (((bytesToBits data).drop off).take n)

/-! Theorems. -/

/-- Helper: on a full 7-byte header, `ReadADTSHeader` returns exactly the
four bit fields of the 56-bit layout, whatever the remaining bits hold. -/
theorem readADTSHeader_bytes_eq_fields (b0 b1 b2 b3 b4 b5 b6 : Nat) :
    ReadADTSHeader [b0, b1, b2, b3, b4, b5, b6] =
      (adtsField [b0, b1, b2, b3, b4, b5, b6] 16 2 + 1,
       adtsField [b0, b1, b2, b3, b4, b5, b6] 18 4,
       adtsField [b0, b1, b2, b3, b4, b5, b6] 23 3,
       adtsField [b0, b1, b2, b3, b4, b5, b6] 30 13) := by
  simp [ReadADTSHeader, readBitsD, BitReader.readBits, adtsField, bytesToBits, natToBits,
    List.range_succ, bitsToNat]

/-- C1.  Evaluation of the write-then-read round trip at the failing input
`ObjectType = 32`, `SampleRateIndex = 4`, `ChannelConfig = 2` (derived fields
zero, so no reverse lookup interferes): because the miscomputed escape
constant `AOT_ESCAPE = 46` is written into a 5-bit field, the encoder emits
bits 01110 000000 0100 0010 (bytes 0x70 0x08 0x40), and the decoder — whose
escape branch compares against 46 and can never fire on a 5-bit value —
returns `ObjectType = 14`, `SampleRateIndex = 0`, `ChannelConfig = 1` instead
of the originals.  This refutes the claimed round trip for every
`ObjectType` in [32,63]. -/
theorem mpeg4_config_roundtrip_escape_broken :
    WriteMPEG4AudioConfig ⟨0, 0, 32, 4, 2⟩ = [0x70, 0x08, 0x40] ∧
      ReadMPEG4AudioConfig [0x70, 0x08, 0x40] = some ⟨0, 0, 14, 0, 1⟩ :=
  ⟨rfl, rfl⟩

/-- C2.  Evaluation of the descriptor write-then-read round trip at its
failing inputs.  For the empty payload, `writeDesc` emits no length byte at
all, so `readDesc` hits end of input while reading the length and fails.
For a 128-byte payload, `writeDesc` emits the length bytes 0x80 0x01
(least-significant 7-bit group first) which `readDesc` — decoding
most-significant group first — takes as length 1, returning a 1-byte payload
and no error. -/
theorem desc_roundtrip_broken :
    readDesc ⟨writeDesc 3 []⟩ = Except.error ("EOF") ∧
      readDesc ⟨writeDesc 3 (List.replicate 128 170)⟩ =
        Except.ok (3, [170], ⟨List.replicate 127 170⟩) :=
  ⟨rfl, rfl⟩

/-- C3.  Actual behaviour of the object-type escape boundary.
`ObjectType = 31` is written as the plain 5 bits 11111 (as claimed), but
`ObjectType = 32` is written as 01110 000000 and `ObjectType = 63` as
01110 011111: the 5-bit "escape sentinel" is the low five bits of the
miscomputed constant `AOT_ESCAPE = 46`, i.e. 14, not 31.  And the decoder,
on reading the 5-bit value 31, does not read 6 more bits: its escape
comparison is against 46, so it returns 31 and leaves the following bits
unconsumed. -/
theorem object_type_escape_actual :
    (writeObjectType ⟨[]⟩ 31).bits = [true, true, true, true, true] ∧
      (writeObjectType ⟨[]⟩ 32).bits =
        [false, true, true, true, false, false, false, false, false, false, false] ∧
      (writeObjectType ⟨[]⟩ 63).bits =
        [false, true, true, true, false, false, true, true, true, true, true] ∧
      readObjectType ⟨List.replicate 11 true⟩ = some (31, ⟨List.replicate 6 true⟩) :=
  ⟨rfl, rfl, rfl, rfl⟩

/-- C4.  Actual descriptor length encoding.  Lengths 0, 127 and 16383 come
out as the claim says ([], [0x7F], [0xFF 0x7F]), but the groups are emitted
least-significant first, so length 128 produces 0x80 0x01 — not the claimed
big-endian 0x81 0x00. -/
theorem desc_length_encoding_actual :
    descLenBytes 0 = [] ∧
      descLenBytes 127 = [0x7F] ∧
      descLenBytes 128 = [0x80, 0x01] ∧
      descLenBytes 16383 = [0xFF, 0x7F] ∧
      writeDesc 7 (List.replicate 128 170) = 7 :: 0x80 :: 0x01 :: List.replicate 128 170 :=
  ⟨rfl, rfl, rfl, rfl, rfl⟩

/-- C5.  `readDesc` on the stream 0x05 0x03 0xAA — tag 5, declared length 3,
but only one payload byte present — returns success with the zero-padded
payload [0xAA, 0, 0]: the single unchecked `Read` call reports no error on a
short read from a non-exhausted `bytes.Reader`, refuting the claim that a
payload shorter than the declared length is always an error. -/
theorem read_desc_short_payload_no_error :
    readDesc ⟨[5, 3, 0xAA]⟩ = Except.ok (5, [0xAA, 0, 0], ⟨[]⟩) :=
  rfl

/-- C6.  The tag-mismatch errors are not distinct and do not identify the
expected tag: a well-formed ES descriptor whose inner descriptor carries
tag 5 where tag 4 (`MP4DecConfigDescrTag`) is required fails with the
message "MP4DecSpecificDescrTag not found" — the very same message
`readDecConfDesc` produces when tag 5 is the one missing. -/
theorem required_tag_errors_not_distinct :
    ReadElemStreamDesc [3, 6, 0, 0, 0, 5, 1, 170] =
        Except.error ("MP4DecSpecificDescrTag not found") ∧
      readDecConfDesc ⟨[0x40, 0x15, 0, 0, 0, 0, 0, 0, 0, 0, 0, 0, 0, 4, 1, 170]⟩ =
        Except.error ("MP4DecSpecificDescrTag not found") :=
  ⟨rfl, rfl⟩

/-- C7 (amended).  `ReadADTSHeader` has no failure path at all: on a full
7-byte header it returns the four fields of the 56-bit layout no matter how
semantically invalid the content is, and on insufficient input (here the
empty input) it returns zero-filled fields — `ObjectType` 1, since the zero
profile is still incremented — rather than reporting a failure. -/
theorem read_adts_header_never_reports_failure (b0 b1 b2 b3 b4 b5 b6 : Nat) :
    ReadADTSHeader [b0, b1, b2, b3, b4, b5, b6] =
        (adtsField [b0, b1, b2, b3, b4, b5, b6] 16 2 + 1,
         adtsField [b0, b1, b2, b3, b4, b5, b6] 18 4,
         adtsField [b0, b1, b2, b3, b4, b5, b6] 23 3,
         adtsField [b0, b1, b2, b3, b4, b5, b6] 30 13) ∧
      ReadADTSHeader [] = (1, 0, 0, 0) :=
  ⟨readADTSHeader_bytes_eq_fields b0 b1 b2 b3 b4 b5 b6, rfl⟩

/-- C7 counterexample to the claim as stated: on the empty input — fewer
bits than the 56-bit layout requires — `ReadADTSHeader` does not report any
failure (its Go signature has no error result and every `ReadBits` error is
discarded); it returns the zero-filled tuple (1, 0, 0, 0). -/
theorem read_adts_header_empty_input_zero_filled :
    ReadADTSHeader [] = (1, 0, 0, 0) :=
  rfl

/-- C8.  `WriteElemStreamDescAAC` on `{ObjectType:2, SampleRate:44100,
ChannelCount:2}` followed by `ReadElemStreamDescAAC` succeeds and yields
`ObjectType = 2`, `SampleRateIndex = 4`, `ChannelConfig = 2` (the derived
fields of the decoded struct are their Go zero values). -/
theorem elem_stream_desc_aac_roundtrip :
    ReadElemStreamDescAAC (WriteElemStreamDescAAC ⟨44100, 2, 2, 0, 0⟩) =
      Except.ok ⟨0, 0, 2, 4, 2⟩ :=
  rfl

/-- C9.  On any 7-byte header whose profile field (bits 16..17) is 01, whose
sampling-frequency-index field (bits 18..21) is 0100, whose
channel-configuration field (bits 23..25) is 010 and whose frame-length
field (bits 30..42) is 0000000001111, `ReadADTSHeader` returns
`ObjectType = 2` (profile plus one), `SampleRateIndex = 4`, `ChanConfig = 2`
and `FrameLength = 15`, reading MSB-first at the offsets of the 56-bit
layout. -/
theorem read_adts_header_field_extraction (b0 b1 b2 b3 b4 b5 b6 : Nat)
    (hprofile : adtsField [b0, b1, b2, b3, b4, b5, b6] 16 2 = 1)
    (hindex : adtsField [b0, b1, b2, b3, b4, b5, b6] 18 4 = 4)
    (hchan : adtsField [b0, b1, b2, b3, b4, b5, b6] 23 3 = 2)
    (hflen : adtsField [b0, b1, b2, b3, b4, b5, b6] 30 13 = 15) :
    ReadADTSHeader [b0, b1, b2, b3, b4, b5, b6] = (2, 4, 2, 15) := by
  rw [readADTSHeader_bytes_eq_fields, hprofile, hindex, hchan, hflen]

/-- C9 witness: the concrete header FF F1 50 80 01 E0 00 has the field
values required by the theorem and decodes to (2, 4, 2, 15). -/
theorem read_adts_header_field_extraction_witness :
    ReadADTSHeader [0xFF, 0xF1, 0x50, 0x80, 0x01, 0xE0, 0x00] = (2, 4, 2, 15) :=
  read_adts_header_field_extraction 0xFF 0xF1 0x50 0x80 0x01 0xE0 0x00 rfl rfl rfl rfl

/-- C10 (amended).  For every config whose `SampleRateIndex` and
`ChannelConfig` are below 2^63, `Complete` keeps `ObjectType`,
`SampleRateIndex` and `ChannelConfig` unchanged, sets `SampleRate` from the
13-entry table when `SampleRateIndex` is below 13 and leaves it unchanged
otherwise, and sets `ChannelCount` from the 8-entry table when
`ChannelConfig` is below 8 and leaves it unchanged otherwise, with no
out-of-bounds access.  (For indices at or above 2^63 the bounds check is
defeated by the signed reinterpretation — see the counterexample.) -/
theorem complete_table_lookup_guarded (c : MPEG4AudioConfig)
    (h1 : c.SampleRateIndex < 2 ^ 63) (h2 : c.ChannelConfig < 2 ^ 63) :
    c.Complete = some { c with
      SampleRate :=
        if c.SampleRateIndex < 13 then sampleRateTable.getD c.SampleRateIndex 0
        else c.SampleRate,
      ChannelCount :=
        if c.ChannelConfig < 8 then chanConfigTable.getD c.ChannelConfig 0
        else c.ChannelCount } := by
  obtain ⟨sr, cc, ot, sri, chc⟩ := c
  simp only at h1 h2
  have hsg : goIntOfUint sri = (sri : Int) := by unfold goIntOfUint; rw [if_pos h1]
  have hcg : goIntOfUint chc = (chc : Int) := by unfold goIntOfUint; rw [if_pos h2]
  by_cases hs : sri < 13 <;> by_cases hc : chc < 8
  · interval_cases sri <;> interval_cases chc <;> rfl
  · interval_cases sri <;>
      simp [MPEG4AudioConfig.Complete, hsg, hcg, hc, sampleRateTable, chanConfigTable]
  · interval_cases chc <;>
      simp [MPEG4AudioConfig.Complete, hsg, hcg, hs, sampleRateTable, chanConfigTable]
  · simp [MPEG4AudioConfig.Complete, hsg, hcg, hs, hc, sampleRateTable, chanConfigTable]

/-- C10 witness: completing `{SampleRateIndex: 4, ChannelConfig: 2}` yields
`SampleRate = 44100` and `ChannelCount = 2` with the wire fields intact. -/
theorem complete_table_lookup_guarded_witness :
    MPEG4AudioConfig.Complete ⟨0, 0, 0, 4, 2⟩ = some ⟨44100, 2, 0, 4, 2⟩ := by
  have h := complete_table_lookup_guarded ⟨0, 0, 0, 4, 2⟩ (by norm_num) (by norm_num)
  rw [h]
  rfl

/-- C10 counterexample to the claim as stated for every config: at
`SampleRateIndex = 2^63` the Go conversion `int(SampleRateIndex)` wraps
negative, the `< len(table)` guard therefore passes, and the slice index
`sampleRateTable[SampleRateIndex]` is out of bounds — a runtime panic,
modelled as `none` — contradicting "left unchanged otherwise without
out-of-bounds access". -/
theorem complete_large_index_out_of_bounds :
    MPEG4AudioConfig.Complete ⟨0, 0, 0, 2 ^ 63, 2⟩ = none :=
  rfl

end Isom
